import Mathlib

/-!
Verification of the chart-preparation pipeline of `bokeh_explanation.ipynb`.

The notebook loads four stock tables (Apple, Google, IBM, Microsoft), converts
their `date` column to a temporal type, wraps each table in a
`ColumnDataSource`, draws `(date, open)` line layers on a sequence of figures,
attaches hover tools with tooltip/format specifications, and configures a
mute-on-click legend on the final figure.

The data tables, figures, layers, tools and the exact arguments of every call
are embedded from the notebook cells.  Behaviour supplied by the external
libraries (pandas date parsing, the tooltip `@field{fmt}` template syntax, the
runtime semantics of legend clicks and hover lookup, render-time validation)
is modelled from the specification and marked as such on each definition.
-/

set_option autoImplicit false

namespace Materiel

/-- A calendar date, the temporal type produced by date normalization. -/
structure Date where
  year : Nat
  month : Nat
  day : Nat
deriving DecidableEq

/-- A tabular cell value: a raw string, a numeric value, or a normalized
temporal value. -/
inductive Value where
  | vstr : String → Value
  | vnum : ℚ → Value
  | vdate : Date → Value
deriving DecidableEq

/-- Gregorian leap-year rule, used to bound the day-of-month check. -/
def isLeapYear (y : Nat) : Bool :=
  (y % 4 == 0 && y % 100 != 0) || (y % 400 == 0)

/-- Number of days in month `m` of year `y`. -/
def daysInMonth (y m : Nat) : Nat :=
  if m = 2 then (if isLeapYear y then 29 else 28)
  else if m = 4 ∨ m = 6 ∨ m = 9 ∨ m = 11 then 30
  else 31

/-- Split a character list into the groups separated by `sep`; the inverse
view of joining with `sep`. -/
def splitOnChar (sep : Char) : List Char → List (List Char)
  | [] => [[]]
  | c :: cs =>
    let r := splitOnChar sep cs
    if c = sep then [] :: r
    else
      match r with
      | [] => [[c]]
      | g :: gs => (c :: g) :: gs

/-- The number denoted by a list of decimal digit characters. -/
def digitsToNat (cs : List Char) : Nat :=
  cs.foldl (fun acc c => acc * 10 + (c.toNat - 48)) 0

/-- Modelled from the spec: strict calendar-date parsing of an ISO
`YYYY-MM-DD` string (the spec requires date values "strictly parseable as
calendar dates"; the parsing itself is done by the external `pd.to_datetime`
collaborator, which is not part of this repository).  Returns `none` on any
malformed input. -/
def parseDate (s : String) : Option Date :=
  match splitOnChar '-' s.data with
  | [ys, ms, ds] =>
    if (ys.length == 4) && (ms.length == 2) && (ds.length == 2)
        && ys.all Char.isDigit && ms.all Char.isDigit && ds.all Char.isDigit then
      let y := digitsToNat ys
      let m := digitsToNat ms
      let d := digitsToNat ds
      if (1 ≤ m ∧ m ≤ 12) ∧ (1 ≤ d ∧ d ≤ daysInMonth y m) then
        some ⟨y, m, d⟩
      else none
    else none
  | _ => none

/-- Modelled from the spec: elementwise behaviour of `pd.to_datetime` on one
cell.  A raw string is parsed as a calendar date; an already-temporal value
passes through unchanged; anything unparseable is a parse error (`none`),
never a silently unparsed or null value. -/
def toDatetimeValue : Value → Option Value
  | Value.vstr s => (parseDate s).map Value.vdate
  | Value.vdate d => some (Value.vdate d)
  | Value.vnum _ => none

/-- Modelled from the spec: `pd.to_datetime` applied to a whole column; the
first parse failure aborts the conversion. -/
def toDatetimeSeries : List Value → Option (List Value)
  | [] => some []
  | v :: vs =>
    match toDatetimeValue v, toDatetimeSeries vs with
    | some w, some ws => some (w :: ws)
    | _, _ => none

/-- A pandas-style data frame: an ordered association of column names to
column values, as produced by `pd.DataFrame.from_dict` in the notebook. -/
structure DataFrame where
  cols : List (String × List Value)
deriving DecidableEq

/-- Column lookup by name (first match). -/
def getCol : List (String × List Value) → String → Option (List Value)
  | [], _ => none
  | c :: cs, n => if c.1 = n then some c.2 else getCol cs n

/-- Column lookup on a data frame. -/
def DataFrame.getCol (df : DataFrame) (n : String) : Option (List Value) :=
  Materiel.getCol df.cols n

/-- Replace the values of the named column, keeping the schema and order. -/
def setCol : List (String × List Value) → String → List Value →
    List (String × List Value)
  | [], _, _ => []
  | c :: cs, n, vs =>
    if c.1 = n then (c.1, vs) :: cs else c :: setCol cs n vs

/-- Column replacement on a data frame, as in `apple["date"] = ...`. -/
def DataFrame.setCol (df : DataFrame) (n : String) (vs : List Value) : DataFrame :=
  ⟨Materiel.setCol df.cols n vs⟩

/-- The column names of a data frame, in order. -/
def DataFrame.columns (df : DataFrame) : List String :=
  df.cols.map (fun c => c.1)

/-- The date-normalization step of cell 4:
`apple["date"] = pd.to_datetime(apple["date"])`.  Reads the `date` column,
converts every cell to a temporal value, and writes it back; a parse failure
surfaces as an error and leaves no partially converted table. -/
def normalizeDates (df : DataFrame) : Except String DataFrame :=
  match df.getCol "date" with
  | none => Except.error "missing date column"
  | some vs =>
    match toDatetimeSeries vs with
    | none => Except.error "parse error"
    | some vs' => Except.ok (df.setCol "date" vs')

/-- A Bokeh `ColumnDataSource`: a wrapper exposing a data frame's columns to
a draw call by field name, as in `transformed_apple = ColumnDataSource(apple)`. -/
structure ColumnDataSource where
  data : DataFrame
deriving DecidableEq

/-- The presentation metadata passed to one `fig.line` call.  A field is
`none` when the notebook's call omits the corresponding keyword argument and
the library default applies. -/
structure LineStyle where
  line_width : Option ℚ
  color : Option String
  alpha : Option ℚ
  muted_color : Option String
  muted_alpha : Option ℚ
  legend_label : Option String
deriving DecidableEq

/-- A line layer added to a figure by one `fig.line` draw call: the x and y
field names, the bound data source and the style. -/
structure LineLayer where
  x : String
  y : String
  source : ColumnDataSource
  style : LineStyle
deriving DecidableEq

/-- The hover tool's muted-series policy: `show'` embeds the library value
`"show"` (a keyword in Lean, hence the prime) and `ignore` embeds `"ignore"`. -/
inductive MutedPolicy where
  | show'
  | ignore
deriving DecidableEq

/-- The `HoverTool(...)` configuration of cells 10, 12 and 14: the ordered
tooltip list of `(label, template)` pairs, the formatter map, the
muted-series policy and the probing mode. -/
structure HoverTool where
  tooltips : List (String × String)
  formatters : List (String × String)
  muted_policy : MutedPolicy
  mode : String
deriving DecidableEq

/-- Modelled from the spec: a `HoverTool(...)` call that omits the
`muted_policy` keyword argument (cells 10 and 12) gets the library default,
which the spec states is `show`. -/
def HoverTool.mkDefault (tooltips formatters : List (String × String))
    (mode : String) : HoverTool :=
  ⟨tooltips, formatters, MutedPolicy.show', mode⟩

/-- A tool attached to a figure. -/
inductive Tool where
  | pan
  | wheel_zoom
  | hover : HoverTool → Tool
deriving DecidableEq

/-- The legend click policy of a figure: `policyNone` is the library default
(clicks do nothing); cell 14 sets `"mute"`; `"hide"` is the alternative the
notebook's comment describes. -/
inductive ClickPolicy where
  | policyNone
  | mute
  | hide
deriving DecidableEq

/-- Figure-level legend configuration: placement and click policy. -/
structure Legend where
  location : String
  click_policy : ClickPolicy
deriving DecidableEq

/-- The renderable chart artifact: dimensions, axis configuration, labels,
the ordered list of line layers (z-order and legend order both follow this
list), the attached tools and the legend configuration. -/
structure Figure where
  width : Nat
  height : Nat
  x_axis_type : Option String
  active_scroll : Option String
  title : String
  xlabel : String
  ylabel : String
  renderers : List LineLayer
  tools : List Tool
  legend : Legend
deriving DecidableEq

/-- The two tools the notebook passes explicitly:
`our_tools = "pan", "wheel_zoom"`.  The notebook notes these are also the
library defaults, so cell 6's `figure(...)` call without `tools` gets the
same list. -/
def our_tools : List Tool := [Tool.pan, Tool.wheel_zoom]

/-- The `figure(...)` constructor: a fresh figure with no layers, the given
tools, and the default legend (`top_right` placement, inert click policy). -/
def figure (width height : Nat) (tools : List Tool)
    (activeScroll xAxisType : Option String) : Figure :=
  { width := width, height := height, x_axis_type := xAxisType,
    active_scroll := activeScroll, title := "", xlabel := "", ylabel := "",
    renderers := [], tools := tools,
    legend := { location := "top_right", click_policy := ClickPolicy.policyNone } }

/-- A `fig.line(x, y, source=..., ...)` draw call: appends one styled line
layer to the figure's renderer list and changes nothing else. -/
def Figure.line (fig : Figure) (x y : String) (source : ColumnDataSource)
    (style : LineStyle) : Figure :=
  { fig with renderers := fig.renderers ++ [{ x := x, y := y, source := source, style := style }] }

/-- A `fig.add_tools(...)` call: appends one tool to the figure. -/
def Figure.add_tools (fig : Figure) (t : Tool) : Figure :=
  { fig with tools := fig.tools ++ [t] }

/-- A style with every keyword argument omitted, for the plain
`fig.line("date", "open", source=...)` calls of cells 6, 8 and 10. -/
def noStyle : LineStyle :=
  { line_width := none, color := none, alpha := none,
    muted_color := none, muted_alpha := none, legend_label := none }

/-- The six tooltip `(label, template)` pairs shared verbatim by the hover
tools of cells 10, 12 and 14 (braces of the notebook's template strings are
written with their escape codes). -/
def stockTooltips : List (String × String) :=
  [("Calendar date", "@date\x7b%F\x7d"),
   ("Opening price", "@open\x7b0,\x7d"),
   ("Daily high", "@high\x7b0,\x7d"),
   ("Daily low", "@low\x7b0,\x7d"),
   ("Closing price", "@close\x7b0,\x7d"),
   ("Trading volume", "@volume\x7b0,\x7d")]

/-- The formatter map `formatters={"@date": "datetime"}` of cells 10, 12
and 14. -/
def stockFormatters : List (String × String) := [("@date", "datetime")]

/-- The hover tool of cell 10 (fig2): no `muted_policy` argument, `vline`
mode. -/
def fig2Hover : HoverTool :=
  HoverTool.mkDefault stockTooltips stockFormatters "vline"

/-- The hover tool of cell 12 (fig3): no `muted_policy` argument, `vline`
mode. -/
def fig3Hover : HoverTool :=
  HoverTool.mkDefault stockTooltips stockFormatters "vline"

/-- The hover tool of cell 14 (fig4): `muted_policy="ignore"`, `vline`
mode. -/
def fig4Hover : HoverTool :=
  { tooltips := stockTooltips, formatters := stockFormatters,
    muted_policy := MutedPolicy.ignore, mode := "vline" }

/-- Style of the Apple line on fig3 (cell 12): width 1.7, alpha 1, crimson,
legend label "Apple". -/
def appleStyle3 : LineStyle :=
  { line_width := some (17/10), color := some "crimson", alpha := some 1,
    muted_color := none, muted_alpha := none, legend_label := some "Apple" }

/-- Style of the Google line on fig3 (cell 12): width 1.7, olive, legend
label "Google"; no alpha argument. -/
def googleStyle3 : LineStyle :=
  { line_width := some (17/10), color := some "olive", alpha := none,
    muted_color := none, muted_alpha := none, legend_label := some "Google" }

/-- Style of the IBM line on fig3 (cell 12). -/
def ibmStyle3 : LineStyle :=
  { line_width := some (17/10), color := some "fuchsia", alpha := none,
    muted_color := none, muted_alpha := none, legend_label := some "IBM" }

/-- Style of the Microsoft line on fig3 (cell 12). -/
def microStyle3 : LineStyle :=
  { line_width := some (17/10), color := some "black", alpha := none,
    muted_color := none, muted_alpha := none, legend_label := some "Microsoft" }

/-- Style of the Apple line on fig4 (cell 14): width 1.7, crimson, alpha 1,
muted colour crimson, muted alpha 0.2, legend label "Apple". -/
def appleStyle4 : LineStyle :=
  { line_width := some (17/10), color := some "crimson", alpha := some 1,
    muted_color := some "crimson", muted_alpha := some (1/5),
    legend_label := some "Apple" }

/-- Style of the Google line on fig4 (cell 14). -/
def googleStyle4 : LineStyle :=
  { line_width := some (17/10), color := some "olive", alpha := some 1,
    muted_color := some "olive", muted_alpha := some (1/5),
    legend_label := some "Google" }

/-- Style of the IBM line on fig4 (cell 14). -/
def ibmStyle4 : LineStyle :=
  { line_width := some (17/10), color := some "fuchsia", alpha := some 1,
    muted_color := some "fuchsia", muted_alpha := some (1/5),
    legend_label := some "IBM" }

/-- Style of the Microsoft line on fig4 (cell 14). -/
def microStyle4 : LineStyle :=
  { line_width := some (17/10), color := some "black", alpha := some 1,
    muted_color := some "black", muted_alpha := some (1/5),
    legend_label := some "Microsoft" }

/-- Cell 10 (fig2): the single-series interactive figure with a hover tool. -/
def buildFig2 (apple : DataFrame) : Figure :=
  let f := figure 1600 500 our_tools (some "wheel_zoom") (some "datetime")
  let f := { f with title := "Our intersecting title",
                    xlabel := "Our intersecting x-axis label",
                    ylabel := "Our intersecting y-axis label" }
  let f := f.line "date" "open" ⟨apple⟩ noStyle
  f.add_tools (Tool.hover fig2Hover)

/-- Cell 12 (fig3): the four-series figure, draw order Apple, Google, IBM,
Microsoft, then the hover tool. -/
def buildFig3 (apple google ibm micro : DataFrame) : Figure :=
  let f := figure 1600 500 our_tools (some "wheel_zoom") (some "datetime")
  let f := { f with title := "Our combined title",
                    xlabel := "Our combined x-axis label",
                    ylabel := "Our combined y-axis label" }
  let f := f.line "date" "open" ⟨apple⟩ appleStyle3
  let f := f.line "date" "open" ⟨google⟩ googleStyle3
  let f := f.line "date" "open" ⟨ibm⟩ ibmStyle3
  let f := f.line "date" "open" ⟨micro⟩ microStyle3
  f.add_tools (Tool.hover fig3Hover)

/-- Cell 14 (fig4): the final figure — four muteable series in draw order
Apple, Google, IBM, Microsoft, the `muted_policy="ignore"` hover tool, the
`top_left` legend placement and the `"mute"` click policy. -/
def buildFig4 (apple google ibm micro : DataFrame) : Figure :=
  let f := figure 1600 500 our_tools (some "wheel_zoom") (some "datetime")
  let f := { f with title := "Our final title",
                    xlabel := "Our final x-axis label",
                    ylabel := "Our final y-axis label" }
  let f := f.line "date" "open" ⟨apple⟩ appleStyle4
  let f := f.line "date" "open" ⟨google⟩ googleStyle4
  let f := f.line "date" "open" ⟨ibm⟩ ibmStyle4
  let f := f.line "date" "open" ⟨micro⟩ microStyle4
  let f := f.add_tools (Tool.hover fig4Hover)
  let f := { f with legend := { f.legend with location := "top_left" } }
  { f with legend := { f.legend with click_policy := ClickPolicy.mute } }

/-- The hover tools attached to a figure, in attachment order. -/
def hoverToolsOf (fig : Figure) : List HoverTool :=
  fig.tools.filterMap (fun t =>
    match t with
    | Tool.hover h => some h
    | _ => none)

/-- The legend entries of a figure, in layer order: one entry per renderer
carrying a legend label. -/
def legendLabels (fig : Figure) : List String :=
  fig.renderers.filterMap (fun ly => ly.style.legend_label)

/-- Modelled from the spec: the field reference of a tooltip template — the
name following `@` and preceding the opening brace in the library's
`@field\x7bfmt\x7d` syntax (template parsing belongs to the external
rendering library). -/
def refField (s : String) : Option String :=
  match s.data with
  | '@' :: rest => some ⟨rest.takeWhile (fun c => c ≠ '\x7b')⟩
  | _ => none

/-- Modelled from the spec: the format hint of a tooltip template — the text
between the braces of the library's `@field\x7bfmt\x7d` syntax. -/
def refFmt (s : String) : Option String :=
  match s.data.dropWhile (fun c => c ≠ '\x7b') with
  | '\x7b' :: rest =>
    if rest.getLast? = some '\x7d' then some ⟨rest.dropLast⟩ else none
  | _ => none

/-- A hover tool's tooltip list as (label, field reference, format hint)
triples — the spec's TooltipSpec view of the configured templates. -/
def tooltipTriples (h : HoverTool) : List (String × Option String × Option String) :=
  h.tooltips.map (fun e => (e.1, refField e.2, refFmt e.2))

/-- Modelled from the spec: the browser-side interactive state of one drawn
series — whether it is currently muted (legend "mute" policy) and whether it
is visible (legend "hide" policy).  Initially unmuted and visible. -/
structure SeriesState where
  muted : Bool
  visible : Bool
deriving DecidableEq

/-- The state of a freshly rendered series: unmuted, visible. -/
def initSeriesState : SeriesState := ⟨false, true⟩

/-- Modelled from the spec: the effect of one legend-entry click on the
clicked series, per the figure's click policy — `mute` toggles the muted
flag, `hide` toggles visibility, the default policy does nothing. -/
def clickLegendEntry (policy : ClickPolicy) (st : SeriesState) : SeriesState :=
  match policy with
  | ClickPolicy.mute => { st with muted := !st.muted }
  | ClickPolicy.hide => { st with visible := !st.visible }
  | ClickPolicy.policyNone => st

/-- Modelled from the spec: a click on the `i`-th legend entry updates the
`i`-th series' state and leaves every other series untouched. -/
def clickLegend (policy : ClickPolicy) : Nat → List SeriesState → List SeriesState
  | _, [] => []
  | 0, st :: rest => clickLegendEntry policy st :: rest
  | n + 1, st :: rest => st :: clickLegend policy n rest

/-- Modelled from the spec: the opacity a layer is drawn with — its
`muted_alpha` while muted, its base `alpha` otherwise. -/
def effectiveAlpha (ly : LineLayer) (st : SeriesState) : Option ℚ :=
  if st.muted then ly.style.muted_alpha else ly.style.alpha

/-- Modelled from the spec: whether a series in state `st` participates in
hover lookup under muted-series policy `mp` — under `ignore`, muted series
are excluded; under `show` they always participate. -/
def hoverEligible (mp : MutedPolicy) (st : SeriesState) : Bool :=
  match mp with
  | MutedPolicy.show' => true
  | MutedPolicy.ignore => !st.muted

/-- The hover-candidate mask of a figure's series list: one flag per series,
in layer order. -/
def hoverCandidates (mp : MutedPolicy) (sts : List SeriesState) : List Bool :=
  sts.map (hoverEligible mp)

/-- Modelled from the spec: whether one tooltip entry's field reference
resolves in a source with columns `cols`; a template with no `@` reference is
literal text and always valid. -/
def validTooltipEntry (cols : List String) (e : String × String) : Bool :=
  match refField e.2 with
  | some f => cols.contains f
  | none => true

/-- Modelled from the spec: a hover tool is valid against a bound source when
every tooltip field reference names one of its columns. -/
def validateHover (h : HoverTool) (cols : List String) : Bool :=
  h.tooltips.all (validTooltipEntry cols)

/-- Modelled from the spec: render-time validation of a figure — a
configuration error when some attached hover tool references a field absent
from some layer's bound table, success otherwise.  Rendering never alters
the figure (it takes the figure by value and returns only a result). -/
def renderFigure (fig : Figure) : Except String Unit :=
  if fig.renderers.all (fun ly =>
      (hoverToolsOf fig).all (fun h => validateHover h ly.source.data.columns)) then
    Except.ok ()
  else
    Except.error "configuration error: tooltip references a missing field"

/-- The whole notebook session after cell 4's normalization: the four stock
tables and the five figures the remaining cells build.  Each later statement
is a step `NotebookState → NotebookState`. -/
structure NotebookState where
  apple : DataFrame
  google : DataFrame
  ibm : DataFrame
  micro : DataFrame
  fig : Figure
  fig1 : Figure
  fig2 : Figure
  fig3 : Figure
  fig4 : Figure
deriving DecidableEq

/-- Cell 6: `fig = figure(...)` plus its title and axis labels.  No `tools`
argument is passed; per the notebook's comment, pan and wheel-zoom are the
library defaults. -/
def stepSetupFig (s : NotebookState) : NotebookState :=
  { s with fig :=
      { figure 1600 500 our_tools none (some "datetime") with
          title := "Our title",
          xlabel := "Our x-axis label",
          ylabel := "Our y-axis label" } }

/-- Cell 6: `transformed_apple = ColumnDataSource(apple)` followed by
`fig.line("date", "open", source=transformed_apple)`. -/
def stepDrawFig (s : NotebookState) : NotebookState :=
  { s with fig := s.fig.line "date" "open" ⟨s.apple⟩ noStyle }

/-- Cell 8: `fig1 = figure(...)` with explicit tools and
`active_scroll="wheel_zoom"`, plus its title and axis labels. -/
def stepSetupFig1 (s : NotebookState) : NotebookState :=
  { s with fig1 :=
      { figure 1600 500 our_tools (some "wheel_zoom") (some "datetime") with
          title := "Our interactive title",
          xlabel := "Our interactive x-axis label",
          ylabel := "Our interactive y-axis label" } }

/-- Cell 8: draw the Apple series on fig1. -/
def stepDrawFig1 (s : NotebookState) : NotebookState :=
  { s with fig1 := s.fig1.line "date" "open" ⟨s.apple⟩ noStyle }

/-- Cell 10: `fig2 = figure(...)` plus its title and axis labels. -/
def stepSetupFig2 (s : NotebookState) : NotebookState :=
  { s with fig2 :=
      { figure 1600 500 our_tools (some "wheel_zoom") (some "datetime") with
          title := "Our intersecting title",
          xlabel := "Our intersecting x-axis label",
          ylabel := "Our intersecting y-axis label" } }

/-- Cell 10: draw the Apple series on fig2. -/
def stepDrawFig2 (s : NotebookState) : NotebookState :=
  { s with fig2 := s.fig2.line "date" "open" ⟨s.apple⟩ noStyle }

/-- Cell 10: `fig2.add_tools(HoverTool(...))`. -/
def stepHoverFig2 (s : NotebookState) : NotebookState :=
  { s with fig2 := s.fig2.add_tools (Tool.hover fig2Hover) }

/-- Cell 12: `fig3 = figure(...)` plus its title and axis labels. -/
def stepSetupFig3 (s : NotebookState) : NotebookState :=
  { s with fig3 :=
      { figure 1600 500 our_tools (some "wheel_zoom") (some "datetime") with
          title := "Our combined title",
          xlabel := "Our combined x-axis label",
          ylabel := "Our combined y-axis label" } }

/-- Cell 12: draw the Apple series on fig3. -/
def stepDrawFig3Apple (s : NotebookState) : NotebookState :=
  { s with fig3 := s.fig3.line "date" "open" ⟨s.apple⟩ appleStyle3 }

/-- Cell 12: draw the Google series on fig3. -/
def stepDrawFig3Google (s : NotebookState) : NotebookState :=
  { s with fig3 := s.fig3.line "date" "open" ⟨s.google⟩ googleStyle3 }

/-- Cell 12: draw the IBM series on fig3. -/
def stepDrawFig3Ibm (s : NotebookState) : NotebookState :=
  { s with fig3 := s.fig3.line "date" "open" ⟨s.ibm⟩ ibmStyle3 }

/-- Cell 12: draw the Microsoft series on fig3. -/
def stepDrawFig3Micro (s : NotebookState) : NotebookState :=
  { s with fig3 := s.fig3.line "date" "open" ⟨s.micro⟩ microStyle3 }

/-- Cell 12: `fig3.add_tools(HoverTool(...))`. -/
def stepHoverFig3 (s : NotebookState) : NotebookState :=
  { s with fig3 := s.fig3.add_tools (Tool.hover fig3Hover) }

/-- Cell 14: `fig4 = figure(...)` plus its title and axis labels. -/
def stepSetupFig4 (s : NotebookState) : NotebookState :=
  { s with fig4 :=
      { figure 1600 500 our_tools (some "wheel_zoom") (some "datetime") with
          title := "Our final title",
          xlabel := "Our final x-axis label",
          ylabel := "Our final y-axis label" } }

/-- Cell 14: draw the Apple series on fig4. -/
def stepDrawFig4Apple (s : NotebookState) : NotebookState :=
  { s with fig4 := s.fig4.line "date" "open" ⟨s.apple⟩ appleStyle4 }

/-- Cell 14: draw the Google series on fig4. -/
def stepDrawFig4Google (s : NotebookState) : NotebookState :=
  { s with fig4 := s.fig4.line "date" "open" ⟨s.google⟩ googleStyle4 }

/-- Cell 14: draw the IBM series on fig4. -/
def stepDrawFig4Ibm (s : NotebookState) : NotebookState :=
  { s with fig4 := s.fig4.line "date" "open" ⟨s.ibm⟩ ibmStyle4 }

/-- Cell 14: draw the Microsoft series on fig4. -/
def stepDrawFig4Micro (s : NotebookState) : NotebookState :=
  { s with fig4 := s.fig4.line "date" "open" ⟨s.micro⟩ microStyle4 }

/-- Cell 14: `fig4.add_tools(HoverTool(...))` with `muted_policy="ignore"`. -/
def stepHoverFig4 (s : NotebookState) : NotebookState :=
  { s with fig4 := s.fig4.add_tools (Tool.hover fig4Hover) }

/-- Cell 14: `fig4.legend.location = "top_left"`. -/
def stepLegendLocFig4 (s : NotebookState) : NotebookState :=
  { s with fig4 := { s.fig4 with legend := { s.fig4.legend with location := "top_left" } } }

/-- Cell 14: `fig4.legend.click_policy = "mute"`. -/
def stepLegendPolicyFig4 (s : NotebookState) : NotebookState :=
  { s with fig4 := { s.fig4 with legend := { s.fig4.legend with click_policy := ClickPolicy.mute } } }

/-- A `show(...)` call: hands the figure to the external display collaborator
and leaves the whole session state unchanged. -/
def stepShowFigure (s : NotebookState) : NotebookState := s

/-- The whole post-normalization session, cells 6 through 14 in order. -/
def runTutorial (s : NotebookState) : NotebookState :=
  stepShowFigure <| stepLegendPolicyFig4 <| stepLegendLocFig4 <| stepHoverFig4 <|
  stepDrawFig4Micro <| stepDrawFig4Ibm <| stepDrawFig4Google <| stepDrawFig4Apple <|
  stepSetupFig4 <|
  stepShowFigure <| stepHoverFig3 <|
  stepDrawFig3Micro <| stepDrawFig3Ibm <| stepDrawFig3Google <| stepDrawFig3Apple <|
  stepSetupFig3 <|
  stepShowFigure <| stepHoverFig2 <| stepDrawFig2 <| stepSetupFig2 <|
  stepShowFigure <| stepDrawFig1 <| stepSetupFig1 <|
  stepShowFigure <| stepDrawFig <| stepSetupFig s

/-- The four stock tables of a session state, the part the pipeline must
leave untouched after normalization. -/
def tablesOf (s : NotebookState) : DataFrame × DataFrame × DataFrame × DataFrame :=
  (s.apple, s.google, s.ibm, s.micro)

/-- Every session component except `fig`. -/
def exceptFig (s : NotebookState) :=
  (s.apple, s.google, s.ibm, s.micro, s.fig1, s.fig2, s.fig3, s.fig4)

/-- Every session component except `fig1`. -/
def exceptFig1 (s : NotebookState) :=
  (s.apple, s.google, s.ibm, s.micro, s.fig, s.fig2, s.fig3, s.fig4)

/-- Every session component except `fig2`. -/
def exceptFig2 (s : NotebookState) :=
  (s.apple, s.google, s.ibm, s.micro, s.fig, s.fig1, s.fig3, s.fig4)

/-- Every session component except `fig3`. -/
def exceptFig3 (s : NotebookState) :=
  (s.apple, s.google, s.ibm, s.micro, s.fig, s.fig1, s.fig2, s.fig4)

/-- Every session component except `fig4`. -/
def exceptFig4 (s : NotebookState) :=
  (s.apple, s.google, s.ibm, s.micro, s.fig, s.fig1, s.fig2, s.fig3)

/-- The schema shared by all four stock tables, as shown by
`print(apple.head(5))` in cell 4. -/
def stockSchema : List String :=
  ["date", "open", "high", "low", "close", "volume", "adj_close"]

/-- The first two rows of the Apple table as printed by cell 4, with the raw
string dates the sample data ships with. -/
def sampleRaw : DataFrame :=
  ⟨[("date", [Value.vstr "2000-03-01", Value.vstr "2000-03-02"]),
    ("open", [Value.vnum (11856/100), Value.vnum 127]),
    ("high", [Value.vnum (13206/100), Value.vnum (12794/100)]),
    ("low", [Value.vnum (1185/10), Value.vnum (12069/100)]),
    ("close", [Value.vnum (13031/100), Value.vnum 122]),
    ("volume", [Value.vnum 38478000, Value.vnum 11136800]),
    ("adj_close", [Value.vnum (3168/100), Value.vnum (2966/100)])]⟩

/-- `sampleRaw` after date normalization: the date column holds temporal
values, everything else is untouched. -/
def sampleNorm : DataFrame :=
  sampleRaw.setCol "date" [Value.vdate ⟨2000, 3, 1⟩, Value.vdate ⟨2000, 3, 2⟩]

/-- `sampleRaw` with its date column replaced by a non-ISO date string. -/
def badDateTable : DataFrame :=
  sampleRaw.setCol "date" [Value.vstr "01/03/2000"]

/-- A table missing most stock columns, used to exercise the render-time
configuration-error branch. -/
def truncatedTable : DataFrame := ⟨[("date", []), ("open", [])]⟩

/-- The effective opacities of a figure's layers under the given interactive
states, in layer order. -/
def effectiveAlphas (fig : Figure) (sts : List SeriesState) : List (Option ℚ) :=
  List.zipWith effectiveAlpha fig.renderers sts

theorem toDatetimeValue_vdate {v w : Value} (h : toDatetimeValue v = some w) :
    ∃ d, w = Value.vdate d := by
  cases v with
  | vstr s =>
    rcases hp : parseDate s with _ | d <;>
      rw [toDatetimeValue, hp] at h
    · cases h
    · injection h with h
      exact ⟨d, h.symm⟩
  | vnum q => simp [toDatetimeValue] at h
  | vdate d =>
    simp only [toDatetimeValue, Option.some.injEq] at h
    exact ⟨d, h.symm⟩

theorem toDatetimeValue_idem {v w : Value} (h : toDatetimeValue v = some w) :
    toDatetimeValue w = some w := by
  obtain ⟨d, rfl⟩ := toDatetimeValue_vdate h
  rfl

theorem toDatetimeSeries_idem :
    ∀ {vs ws : List Value}, toDatetimeSeries vs = some ws →
      toDatetimeSeries ws = some ws := by
  intro vs
  induction vs with
  | nil =>
    intro ws h
    simp only [toDatetimeSeries, Option.some.injEq] at h
    subst h
    rfl
  | cons v tl ih =>
    intro ws h
    rcases hv : toDatetimeValue v with _ | w <;> rw [toDatetimeSeries, hv] at h
    · cases h
    · rcases ht : toDatetimeSeries tl with _ | ws' <;> rw [ht] at h
      · cases h
      · injection h with h
        subst h
        rw [toDatetimeSeries, toDatetimeValue_idem hv, ih ht]

theorem toDatetimeSeries_all_vdate :
    ∀ {vs ws : List Value}, toDatetimeSeries vs = some ws →
      ∀ w ∈ ws, ∃ d, w = Value.vdate d := by
  intro vs
  induction vs with
  | nil =>
    intro ws h
    simp only [toDatetimeSeries, Option.some.injEq] at h
    subst h
    intro w hw
    cases hw
  | cons v tl ih =>
    intro ws h
    rcases hv : toDatetimeValue v with _ | w <;> rw [toDatetimeSeries, hv] at h
    · cases h
    · rcases ht : toDatetimeSeries tl with _ | ws' <;> rw [ht] at h
      · cases h
      · injection h with h
        subst h
        intro u hu
        rcases List.mem_cons.mp hu with rfl | hu'
        · exact toDatetimeValue_vdate hv
        · exact ih ht u hu'

theorem toDatetimeSeries_mem_none {vs : List Value} {s : String}
    (hmem : Value.vstr s ∈ vs) (hbad : parseDate s = none) :
    toDatetimeSeries vs = none := by
  induction vs with
  | nil => cases hmem
  | cons v tl ih =>
    rcases List.mem_cons.mp hmem with rfl | hmem'
    · simp [toDatetimeSeries, toDatetimeValue, hbad]
    · rw [toDatetimeSeries, ih hmem']
      cases toDatetimeValue v <;> rfl

theorem getCol_setCol {cs : List (String × List Value)} {n : String}
    {vs : List Value} (vs' : List Value) (h : getCol cs n = some vs) :
    getCol (setCol cs n vs') n = some vs' := by
  induction cs with
  | nil => simp [getCol] at h
  | cons c tl ih =>
    by_cases hc : c.1 = n
    · simp [getCol, setCol, hc]
    · rw [getCol, if_neg hc] at h
      rw [setCol, if_neg hc, getCol, if_neg hc]
      exact ih h

theorem setCol_setCol (cs : List (String × List Value)) (n : String)
    (vs' : List Value) : setCol (setCol cs n vs') n vs' = setCol cs n vs' := by
  induction cs with
  | nil => rfl
  | cons c tl ih =>
    by_cases hc : c.1 = n
    · simp [setCol, hc]
    · simp only [setCol, if_neg hc]
      rw [ih]

theorem clickEntry_mute_inv (st : SeriesState) :
    clickLegendEntry ClickPolicy.mute (clickLegendEntry ClickPolicy.mute st) = st := by
  simp [clickLegendEntry]

theorem clickLegend_mute_inv (k : Nat) (sts : List SeriesState) :
    clickLegend ClickPolicy.mute k (clickLegend ClickPolicy.mute k sts) = sts := by
  induction sts generalizing k with
  | nil => cases k <;> rfl
  | cons st tl ih =>
    cases k with
    | zero => simp [clickLegend, clickEntry_mute_inv]
    | succ n => simp [clickLegend, ih]

/-- Claim C1: drawing the four stock tables on the multi-series figures
(fig3 and fig4) in the order Apple, Google, IBM, Microsoft yields exactly
four line layers, each bound to its own table's `(date, open)` projection,
each with its legend label and a distinct colour; the renderer list (the
z-order) and the legend-label order both follow the draw-call order. -/
theorem multi_series_layer_order (a g i m : DataFrame) :
    (buildFig3 a g i m).renderers.length = 4 ∧
    (buildFig3 a g i m).renderers.map (fun ly => (ly.x, ly.y, ly.source.data)) =
      [("date", "open", a), ("date", "open", g), ("date", "open", i), ("date", "open", m)] ∧
    legendLabels (buildFig3 a g i m) = ["Apple", "Google", "IBM", "Microsoft"] ∧
    (buildFig3 a g i m).renderers.map (fun ly => ly.style.color) =
      [some "crimson", some "olive", some "fuchsia", some "black"] ∧
    (buildFig4 a g i m).renderers.length = 4 ∧
    (buildFig4 a g i m).renderers.map (fun ly => (ly.x, ly.y, ly.source.data)) =
      [("date", "open", a), ("date", "open", g), ("date", "open", i), ("date", "open", m)] ∧
    legendLabels (buildFig4 a g i m) = ["Apple", "Google", "IBM", "Microsoft"] ∧
    (buildFig4 a g i m).renderers.map (fun ly => ly.style.color) =
      [some "crimson", some "olive", some "fuchsia", some "black"] ∧
    (["crimson", "olive", "fuchsia", "black"] : List String).Pairwise (· ≠ ·) := by
  refine ⟨rfl, rfl, rfl, rfl, rfl, rfl, rfl, rfl, ?_⟩
  decide

/-- Claim C2: the hover tool attached to fig4 carries exactly the six
tooltip entries — (Calendar date, date, %F), (Opening price, open, 0,),
(Daily high, high, 0,), (Daily low, low, 0,), (Closing price, close, 0,),
(Trading volume, volume, 0,) — in exactly that order, and its formatter map
assigns the `datetime` formatter kind to the `@date` field reference. -/
theorem tooltip_spec_six_entries (a g i m : DataFrame) :
    hoverToolsOf (buildFig4 a g i m) = [fig4Hover] ∧
    tooltipTriples fig4Hover =
      [("Calendar date", some "date", some "%F"),
       ("Opening price", some "open", some "0,"),
       ("Daily high", some "high", some "0,"),
       ("Daily low", some "low", some "0,"),
       ("Closing price", some "close", some "0,"),
       ("Trading volume", some "volume", some "0,")] ∧
    fig4Hover.tooltips.length = 6 ∧
    fig4Hover.formatters = [("@date", "datetime")] ∧
    refField "@date" = some "date" := by
  exact ⟨rfl, by decide, rfl, rfl, by decide⟩

/-- Claim C3: on fig4 (legend click policy "mute", hover muted policy
"ignore"), clicking any series' legend entry drops its effective opacity
from its base alpha 1 to its muted alpha 0.2 and removes exactly that series
from the hover-candidate mask; clicking the same entry again restores the
initial state, so two clicks compose to the identity. -/
theorem mute_click_toggles_series (a g i m : DataFrame) (k : Nat)
    (sts : List SeriesState) :
    clickLegend ClickPolicy.mute k (clickLegend ClickPolicy.mute k sts) = sts ∧
    (buildFig4 a g i m).legend.click_policy = ClickPolicy.mute ∧
    hoverToolsOf (buildFig4 a g i m) = [fig4Hover] ∧
    fig4Hover.muted_policy = MutedPolicy.ignore ∧
    effectiveAlphas (buildFig4 a g i m) (List.replicate 4 initSeriesState) =
      [some 1, some 1, some 1, some 1] ∧
    hoverCandidates MutedPolicy.ignore (List.replicate 4 initSeriesState) =
      [true, true, true, true] ∧
    effectiveAlphas (buildFig4 a g i m)
        (clickLegend ClickPolicy.mute 0 (List.replicate 4 initSeriesState)) =
      [some (1/5), some 1, some 1, some 1] ∧
    hoverCandidates MutedPolicy.ignore
        (clickLegend ClickPolicy.mute 0 (List.replicate 4 initSeriesState)) =
      [false, true, true, true] ∧
    effectiveAlphas (buildFig4 a g i m)
        (clickLegend ClickPolicy.mute 1 (List.replicate 4 initSeriesState)) =
      [some 1, some (1/5), some 1, some 1] ∧
    hoverCandidates MutedPolicy.ignore
        (clickLegend ClickPolicy.mute 1 (List.replicate 4 initSeriesState)) =
      [true, false, true, true] ∧
    effectiveAlphas (buildFig4 a g i m)
        (clickLegend ClickPolicy.mute 2 (List.replicate 4 initSeriesState)) =
      [some 1, some 1, some (1/5), some 1] ∧
    hoverCandidates MutedPolicy.ignore
        (clickLegend ClickPolicy.mute 2 (List.replicate 4 initSeriesState)) =
      [true, true, false, true] ∧
    effectiveAlphas (buildFig4 a g i m)
        (clickLegend ClickPolicy.mute 3 (List.replicate 4 initSeriesState)) =
      [some 1, some 1, some 1, some (1/5)] ∧
    hoverCandidates MutedPolicy.ignore
        (clickLegend ClickPolicy.mute 3 (List.replicate 4 initSeriesState)) =
      [true, true, true, false] := by
  exact ⟨clickLegend_mute_inv k sts, rfl, rfl, rfl, rfl, rfl, rfl, rfl, rfl,
    rfl, rfl, rfl, rfl, rfl⟩

/-- Claim C4: date normalization is idempotent — if normalizing a table's
date field succeeds and yields a table, normalizing that table again
succeeds and yields exactly the same temporal values. -/
theorem normalize_dates_idempotent (df df' : DataFrame)
    (h : normalizeDates df = Except.ok df') :
    normalizeDates df' = Except.ok df' := by
  rcases hg : df.getCol "date" with _ | vs <;>
    simp only [normalizeDates, hg] at h
  · cases h
  · rcases hs : toDatetimeSeries vs with _ | vs' <;> rw [hs] at h
    · cases h
    · injection h with h
      subst h
      have hg' : (df.setCol "date" vs').getCol "date" = some vs' :=
        getCol_setCol vs' hg
      simp only [normalizeDates, hg', toDatetimeSeries_idem hs]
      simp only [DataFrame.setCol, setCol_setCol]

/-- Claim C4 witness: normalizing the sample table once yields `sampleNorm`,
and by `normalize_dates_idempotent` normalizing again yields it unchanged. -/
theorem normalize_dates_idempotent_witness :
    normalizeDates sampleRaw = Except.ok sampleNorm ∧
    normalizeDates sampleNorm = Except.ok sampleNorm :=
  ⟨rfl, normalize_dates_idempotent sampleRaw sampleNorm rfl⟩

/-- Claim C5: a table whose date column contains an unparseable date string
makes normalization fail with a parse error; and whenever normalization
succeeds, every value of the resulting date column is a temporal value —
never an unparsed or null date. -/
theorem malformed_date_parse_error (df : DataFrame) (vs : List Value)
    (s : String) (hcol : df.getCol "date" = some vs)
    (hmem : Value.vstr s ∈ vs) (hbad : parseDate s = none) :
    normalizeDates df = Except.error "parse error" ∧
    ∀ df₂ df₂' : DataFrame, ∀ vs₂ : List Value,
      normalizeDates df₂ = Except.ok df₂' → df₂'.getCol "date" = some vs₂ →
      ∀ v ∈ vs₂, ∃ d, v = Value.vdate d := by
  constructor
  · simp only [normalizeDates, hcol, toDatetimeSeries_mem_none hmem hbad]
  · intro df₂ df₂' vs₂ hok hcol₂
    rcases hg : df₂.getCol "date" with _ | vs0 <;>
      simp only [normalizeDates, hg] at hok
    · cases hok
    · rcases hs : toDatetimeSeries vs0 with _ | vs0' <;> rw [hs] at hok
      · cases hok
      · injection hok with hok
        subst hok
        have hg' : (df₂.setCol "date" vs0').getCol "date" = some vs0' :=
          getCol_setCol vs0' hg
        rw [hg'] at hcol₂
        injection hcol₂ with hcol₂
        subst hcol₂
        exact toDatetimeSeries_all_vdate hs

/-- Claim C5 witness: the non-ISO date string `01/03/2000` does not parse,
and normalizing a table carrying it fails with the parse error. -/
theorem malformed_date_parse_error_witness :
    parseDate "01/03/2000" = none ∧
    normalizeDates badDateTable = Except.error "parse error" :=
  ⟨by decide,
   (malformed_date_parse_error badDateTable [Value.vstr "01/03/2000"]
     "01/03/2000" rfl (by decide) (by decide)).1⟩

/-- Claim C6: the muted-series policy is the two-valued enum show/ignore; a
hover tool built without an explicit `muted_policy` (fig2 and fig3) carries
the default `show`, while fig4's hover tool carries the override `ignore`,
which excludes muted series from hover lookup. -/
theorem muted_policy_default_show (p : MutedPolicy) (a g i m : DataFrame)
    (tt fm : List (String × String)) (md : String) :
    (p = MutedPolicy.show' ∨ p = MutedPolicy.ignore) ∧
    (HoverTool.mkDefault tt fm md).muted_policy = MutedPolicy.show' ∧
    hoverToolsOf (buildFig2 a) = [fig2Hover] ∧
    fig2Hover.muted_policy = MutedPolicy.show' ∧
    hoverToolsOf (buildFig3 a g i m) = [fig3Hover] ∧
    fig3Hover.muted_policy = MutedPolicy.show' ∧
    hoverToolsOf (buildFig4 a g i m) = [fig4Hover] ∧
    fig4Hover.muted_policy = MutedPolicy.ignore ∧
    hoverEligible MutedPolicy.ignore ⟨true, true⟩ = false ∧
    hoverEligible MutedPolicy.show' ⟨true, true⟩ = true := by
  refine ⟨?_, rfl, rfl, rfl, rfl, rfl, rfl, rfl, rfl, rfl⟩
  cases p
  · exact Or.inl rfl
  · exact Or.inr rfl

/-- Claim C7: when an attached hover tool references a field absent from a
bound table, the error surfaces at render time — constructing the tool is
total and attaching it leaves the figure's layers and legend configuration
unchanged — and rendering reports the configuration error. -/
theorem missing_field_render_error (fig : Figure) (h : HoverTool)
    (ly : LineLayer) (lbl tmpl f : String) (t : Tool)
    (tt fm : List (String × String)) (mp : MutedPolicy) (md : String)
    (hly : ly ∈ fig.renderers) (hh : h ∈ hoverToolsOf fig)
    (he : (lbl, tmpl) ∈ h.tooltips) (hf : refField tmpl = some f)
    (hmiss : ly.source.data.columns.contains f = false) :
    renderFigure fig =
      Except.error "configuration error: tooltip references a missing field" ∧
    (HoverTool.mk tt fm mp md).tooltips = tt ∧
    (fig.add_tools t).renderers = fig.renderers ∧
    (fig.add_tools t).legend = fig.legend := by
  refine ⟨?_, rfl, rfl, rfl⟩
  have hv : validTooltipEntry ly.source.data.columns (lbl, tmpl) = false := by
    simp only [validTooltipEntry, hf]
    exact hmiss
  have hcond : fig.renderers.all (fun ly =>
      (hoverToolsOf fig).all (fun h => validateHover h ly.source.data.columns)) = false := by
    rw [List.all_eq_false]
    refine ⟨ly, hly, ?_⟩
    rw [Bool.not_eq_true, List.all_eq_false]
    refine ⟨h, hh, ?_⟩
    rw [Bool.not_eq_true, validateHover, List.all_eq_false]
    exact ⟨(lbl, tmpl), he, by simp [hv]⟩
  rw [renderFigure, hcond]
  rfl

/-- Claim C7 witness: on a single-series figure bound to a table with only
`date` and `open` columns, the attached hover tool's `@high` reference makes
rendering fail with the configuration error. -/
theorem missing_field_render_error_witness :
    truncatedTable.columns.contains "high" = false ∧
    renderFigure (buildFig2 truncatedTable) =
      Except.error "configuration error: tooltip references a missing field" :=
  ⟨by decide,
   (missing_field_render_error (buildFig2 truncatedTable) fig2Hover
     ⟨"date", "open", ⟨truncatedTable⟩, noStyle⟩ "Daily high" "@high\x7b0,\x7d"
     "high" Tool.pan [] [] MutedPolicy.show' "vline"
     (by decide) (by decide) (by decide) (by decide) (by decide)).1⟩

/-- Claim C8: after normalization no later step of the session — data-source
wrapping, any draw call on any figure, tool attachment, legend
configuration, or display — changes any of the four tables, and each such
step changes nothing but the one figure it targets. -/
theorem tables_immutable_after_normalization (s : NotebookState) (df : DataFrame) :
    tablesOf (runTutorial s) = tablesOf s ∧
    (ColumnDataSource.mk df).data = df ∧
    exceptFig (stepDrawFig s) = exceptFig s ∧
    exceptFig1 (stepDrawFig1 s) = exceptFig1 s ∧
    exceptFig2 (stepDrawFig2 s) = exceptFig2 s ∧
    exceptFig2 (stepHoverFig2 s) = exceptFig2 s ∧
    exceptFig3 (stepDrawFig3Apple s) = exceptFig3 s ∧
    exceptFig3 (stepDrawFig3Google s) = exceptFig3 s ∧
    exceptFig3 (stepDrawFig3Ibm s) = exceptFig3 s ∧
    exceptFig3 (stepDrawFig3Micro s) = exceptFig3 s ∧
    exceptFig3 (stepHoverFig3 s) = exceptFig3 s ∧
    exceptFig4 (stepDrawFig4Apple s) = exceptFig4 s ∧
    exceptFig4 (stepDrawFig4Google s) = exceptFig4 s ∧
    exceptFig4 (stepDrawFig4Ibm s) = exceptFig4 s ∧
    exceptFig4 (stepDrawFig4Micro s) = exceptFig4 s ∧
    exceptFig4 (stepHoverFig4 s) = exceptFig4 s ∧
    exceptFig4 (stepLegendLocFig4 s) = exceptFig4 s ∧
    exceptFig4 (stepLegendPolicyFig4 s) = exceptFig4 s ∧
    stepShowFigure s = s := by
  refine ⟨?_, rfl, rfl, rfl, rfl, rfl, rfl, rfl, rfl, rfl, rfl, rfl, rfl,
    rfl, rfl, rfl, rfl, rfl, rfl⟩
  simp [runTutorial, stepShowFigure, stepLegendPolicyFig4, stepLegendLocFig4,
    stepHoverFig4, stepDrawFig4Micro, stepDrawFig4Ibm, stepDrawFig4Google,
    stepDrawFig4Apple, stepSetupFig4, stepHoverFig3, stepDrawFig3Micro,
    stepDrawFig3Ibm, stepDrawFig3Google, stepDrawFig3Apple, stepSetupFig3,
    stepHoverFig2, stepDrawFig2, stepSetupFig2, stepDrawFig1, stepSetupFig1,
    stepDrawFig, stepSetupFig, tablesOf]

/-- Claim C9: every tooltip field reference of the attached spec (date,
open, high, low, close, volume) names a column of the stock schema all four
bound tables share, so render-time validation of fig4 succeeds — the
configuration-error branch is unreachable as the notebook is written — and
no tooltip entry references `adj_close`. -/
theorem tooltip_fields_in_schema (a g i m : DataFrame)
    (ha : a.columns = stockSchema) (hgo : g.columns = stockSchema)
    (hi : i.columns = stockSchema) (hm : m.columns = stockSchema) :
    renderFigure (buildFig4 a g i m) = Except.ok () ∧
    fig4Hover.tooltips.filterMap (fun e => refField e.2) =
      ["date", "open", "high", "low", "close", "volume"] ∧
    (fig4Hover.tooltips.filterMap (fun e => refField e.2)).all
      (fun f => stockSchema.contains f) = true ∧
    (fig4Hover.tooltips.filterMap (fun e => refField e.2)).contains
      "adj_close" = false := by
  refine ⟨?_, by decide, by decide, by decide⟩
  have hr : (buildFig4 a g i m).renderers =
      [⟨"date", "open", ⟨a⟩, appleStyle4⟩, ⟨"date", "open", ⟨g⟩, googleStyle4⟩,
       ⟨"date", "open", ⟨i⟩, ibmStyle4⟩, ⟨"date", "open", ⟨m⟩, microStyle4⟩] := rfl
  have hht : hoverToolsOf (buildFig4 a g i m) = [fig4Hover] := rfl
  have hv : validateHover fig4Hover stockSchema = true := by decide
  have hcond : (buildFig4 a g i m).renderers.all (fun ly =>
      (hoverToolsOf (buildFig4 a g i m)).all
        (fun h => validateHover h ly.source.data.columns)) = true := by
    rw [hr, hht]
    simp only [List.all_cons, List.all_nil]
    rw [ha, hgo, hi, hm]
    simp [hv]
  rw [renderFigure, hcond]
  rfl

/-- Claim C9 witness: the sample stock table has exactly the shared schema,
and rendering fig4 over four such tables succeeds. -/
theorem tooltip_fields_in_schema_witness :
    sampleRaw.columns = stockSchema ∧
    renderFigure (buildFig4 sampleRaw sampleRaw sampleRaw sampleRaw) =
      Except.ok () :=
  ⟨rfl,
   (tooltip_fields_in_schema sampleRaw sampleRaw sampleRaw sampleRaw
     rfl rfl rfl rfl).1⟩

/-- Claim C10: every series of fig4 satisfies the same style invariant — its
muted colour equals its base colour, its base alpha is 1, its muted alpha is
0.2 (strictly between 0 and the base alpha) and its line width is 1.7. -/
theorem fig4_style_invariant (a g i m : DataFrame) :
    (buildFig4 a g i m).renderers.map (fun ly => ly.style) =
      [appleStyle4, googleStyle4, ibmStyle4, microStyle4] ∧
    appleStyle4.muted_color = appleStyle4.color ∧
    appleStyle4.alpha = some 1 ∧ appleStyle4.muted_alpha = some (1/5) ∧
    appleStyle4.line_width = some (17/10) ∧
    googleStyle4.muted_color = googleStyle4.color ∧
    googleStyle4.alpha = some 1 ∧ googleStyle4.muted_alpha = some (1/5) ∧
    googleStyle4.line_width = some (17/10) ∧
    ibmStyle4.muted_color = ibmStyle4.color ∧
    ibmStyle4.alpha = some 1 ∧ ibmStyle4.muted_alpha = some (1/5) ∧
    ibmStyle4.line_width = some (17/10) ∧
    microStyle4.muted_color = microStyle4.color ∧
    microStyle4.alpha = some 1 ∧ microStyle4.muted_alpha = some (1/5) ∧
    microStyle4.line_width = some (17/10) ∧
    (0 : ℚ) < 1/5 ∧ (1/5 : ℚ) < 1 := by
  refine ⟨rfl, rfl, rfl, rfl, rfl, rfl, rfl, rfl, rfl, rfl, rfl, rfl, rfl,
    rfl, rfl, rfl, rfl, ?_, ?_⟩ <;> norm_num

end Materiel
